import Mathlib

/-!
Verification development for the dora Python node API
(src/apis/python/node/src/lib.rs): the event multiplexer (native event stream
merged with external asynchronous streams), the synchronous receive bridge, and
the typed output send path.

Asynchronous streams are modelled as finite timed lists: each item carries the
readiness instant at which polling the stream would yield it.  All operations of
lib.rs are translated on this model; collaborators that live outside src/
(dora_node_api, dora_operator_api_python) are modelled from the spec, as noted
on each definition.
-/

set_option autoImplicit false

namespace DoraSpec

/-- Modelled from the spec: the events of the native dataflow stream
(dora_node_api::Event, not under src/) — input arrival, input-closed
notification, stop signal, or error (spec section 3, Merged Event). -/
inductive DoraEvent : Type where
  | Input (id : String) (data : List Nat)
  | InputClosed (id : String)
  | Stop
  | Error (msg : String)
deriving DecidableEq

/-- A stream is modelled as a finite list of items tagged with their readiness
time: the instant at which polling the stream would yield the item. -/
abbrev Timed (α : Type) : Type := List (Nat × α)

/-- Readiness order on timed items: comparison of readiness times. -/
abbrev timeLE {α : Type} (p q : Nat × α) : Prop := p.1 ≤ q.1

/-- Modelled from the spec: dora_node_api::merged::MergedEvent (not under
src/) — one item of a combined stream, tagged by origin: produced by the
dataflow runtime, or supplied by an external adapter (spec section 3). -/
inductive MergedEvent (E : Type) : Type where
  | Dora (e : DoraEvent)
  | External (e : E)
deriving DecidableEq

/-- Modelled from the spec: the one-layer wrapping introduced when an
already-merged stream is merged with a further external adapter
(dora_node_api::merged::Either, not under src/): external items of the old
merged stream are First, items of the new adapter are Second (spec
section 4.2). -/
inductive Either (A : Type) (B : Type) : Type where
  | First (a : A)
  | Second (b : B)
deriving DecidableEq

/-- Modelled from the spec: removing exactly one layer of wrapping from an
external item (spec section 4.2, flattening step). -/
def Either.flatten {A : Type} : Either A A → A
  | .First a => a
  | .Second a => a

/-- Map over the items of a timed stream, keeping readiness times (the
StreamExt::map combinator on the timed-list model). -/
def tmap {α β : Type} (f : α → β) (s : Timed α) : Timed β :=
  s.map (fun p => (p.1, f p.2))

/-- Modelled from the spec: the fair arrival-order stream merge underlying
dora_node_api::merged (futures_concurrency, not under src/).  The two timed
streams are interleaved by readiness: each step yields the item that becomes
ready first, with no global priority to either side (spec section 4.2). -/
def mergeTimed {α : Type} : Timed α → Timed α → Timed α
  | [], ys => ys
  | x :: xs, [] => x :: xs
  | x :: xs, y :: ys =>
    if x.1 ≤ y.1 then x :: mergeTimed xs (y :: ys)
    else y :: mergeTimed (x :: xs) ys
termination_by xs ys => xs.length + ys.length

/-- Modelled from the spec: the native event stream
(dora_node_api::EventStream, not under src/), as the timed list of events still
to be delivered by the dataflow runtime. -/
abbrev EventStream : Type := Timed DoraEvent

/-- Modelled from the spec: EventStream::recv (not under src/) — the native
stream's own blocking receive: the next queued event, or none once all senders
have been dropped (spec section 4.3). -/
def EventStream.recv (s : EventStream) : Option DoraEvent × EventStream :=
  match s with
  | [] => (none, [])
  | (_, e) :: rest => (some e, rest)

/-- Modelled from the spec: driving an asynchronous stream just far enough to
produce exactly one item or its end-of-stream signal
(futures::executor::block_on of StreamExt::next; spec section 4.3). -/
def streamNext {α : Type} (s : Timed α) : Option α × Timed α :=
  match s with
  | [] => (none, [])
  | (_, x) :: rest => (some x, rest)

/-- Modelled from the spec: impl MergeExternal for EventStream
(dora_node_api::merged, not under src/): native events are tagged FromGraph,
external items FromExternal, interleaved in arrival order (spec sections 3
and 4.2). -/
def EventStream.merge_external {E : Type} (events : EventStream)
    (external_events : Timed E) : Timed (MergedEvent E) :=
  mergeTimed (tmap MergedEvent.Dora events) (tmap MergedEvent.External external_events)

/-- Modelled from the spec: the tagging applied to items of an already-merged
stream when it is merged again (dora_node_api::merged, not under src/):
graph events stay as they are, previously external items gain the First
wrapper (spec section 4.2). -/
def MergedEvent.wrapFirst {F E : Type} : MergedEvent F → MergedEvent (Either F E)
  | .Dora e => .Dora e
  | .External e => .External (Either.First e)

/-- Modelled from the spec: impl MergeExternal for a stream of merged events
(dora_node_api::merged, not under src/): the old merged stream and the new
adapter are interleaved in arrival order, new items wrapped as Second (spec
section 4.2). -/
def mergedMergeExternal {F E : Type} (events : Timed (MergedEvent F))
    (external_events : Timed E) : Timed (MergedEvent (Either F E)) :=
  mergeTimed (tmap MergedEvent.wrapFirst events)
    (tmap (fun x => MergedEvent.External (Either.Second x)) external_events)

/-- Modelled from the spec: dora_operator_api_python::PyEvent (not under
src/) — the host-native representation of one received event, distinguishable
by origin and kind (spec section 6, host-binding adapter boundary). -/
inductive PyEvent (E : Type) : Type where
  | Dora (e : DoraEvent)
  | External (x : E)
deriving DecidableEq

/-- Modelled from the spec: PyEvent::from for a native event (spec section 6). -/
def PyEvent.fromDoraEvent {E : Type} (e : DoraEvent) : PyEvent E :=
  PyEvent.Dora e

/-- Modelled from the spec: PyEvent::from for a merged event (spec section 6). -/
def PyEvent.fromMerged {E : Type} : MergedEvent E → PyEvent E
  | .Dora e => PyEvent.Dora e
  | .External x => PyEvent.External x

/-- enum Events of lib.rs: the active event source — the native dora stream, or
an already-merged stream. -/
inductive Events (E : Type) : Type where
  | Dora (events : EventStream)
  | Merged (events : Timed (MergedEvent E))
deriving DecidableEq

/-- Events::recv of lib.rs: a Dora source delegates to the native stream's own
blocking receive; a Merged source drives the asynchronous stream to its next
item via block_on.  Returns the received event (converted to the host
representation) together with the source as the call leaves it. -/
def Events.recv {E : Type} : Events E → Option (PyEvent E) × Events E
  | .Dora events =>
    let r := EventStream.recv events
    (r.1.map PyEvent.fromDoraEvent, Events.Dora r.2)
  | .Merged events =>
    let r := streamNext events
    (r.1.map PyEvent.fromMerged, Events.Merged r.2)

/-- The re-mapping stage of lib.rs (impl MergeExternal for Events, Merged
case): graph events pass through, external items lose exactly one layer of
wrapping. -/
def MergedEvent.flattenExternal {E : Type} : MergedEvent (Either E E) → MergedEvent E
  | .Dora e => MergedEvent.Dora e
  | .External e => MergedEvent.External e.flatten

/-- impl MergeExternal for Events of lib.rs: a Dora source is merged directly;
a Merged source is merged and every resulting external item is re-mapped by
removing one wrapping layer, so the item shape stays flat. -/
def Events.merge_external {E : Type} : Events E → Timed E → Timed (MergedEvent E)
  | .Dora events, external_events => EventStream.merge_external events external_events
  | .Merged events, external_events =>
    tmap MergedEvent.flattenExternal (mergedMergeExternal events external_events)

/-- Modelled from the spec: the columnar type descriptor attached to an output
(arrow::datatypes::DataType, external collaborator), kept as an opaque tag
(spec glossary). -/
inductive DataType : Type where
  | Float32
  | UInt8
  | Utf8
  | Other (name : String)
deriving DecidableEq

/-- Modelled from the spec: metadata values are a closed mapping of
scalar/string types (spec section 4.4). -/
inductive MetadataValue : Type where
  | IntV (i : Int)
  | BoolV (b : Bool)
  | StringV (s : String)
deriving DecidableEq

/-- A host-side metadata dictionary: ordered key/value entries. -/
structure PyDict : Type where
  entries : List (String × MetadataValue)
deriving DecidableEq

/-- An eyre error chain: the context messages added by wrap_err/context,
outermost first, and the original root message.  Wrapping never discards the
wrapped error. -/
structure EyreError : Type where
  contexts : List String
  rootMsg : String
deriving DecidableEq

/-- A fresh eyre error with no surrounding context. -/
def EyreError.new (msg : String) : EyreError :=
  { contexts := [], rootMsg := msg }

/-- eyre's wrap_err / context: adds one context layer, keeping the wrapped
error intact. -/
def EyreError.wrap_err (e : EyreError) (c : String) : EyreError :=
  { contexts := c :: e.contexts, rootMsg := e.rootMsg }

/-- One message enqueued on the node's channel: identifier, type descriptor,
metadata, declared length, and the bytes of the destination buffer after the
writer callback ran. -/
structure OutputMessage : Type where
  output_id : String
  data_type : DataType
  metadata : List (String × MetadataValue)
  len : Nat
  data : List Nat
deriving DecidableEq

/-- Modelled from the spec: the state of dora_node_api::DoraNode (not under
src/) — the channel to the dataflow runtime (its declared outputs, whether it
is closed, and the messages enqueued so far) and the node's identity (spec
sections 3 and 4.4). -/
structure DoraNode : Type where
  node_id : String
  dataflow : String
  declared_outputs : List String
  channel_closed : Bool
  sent : List OutputMessage
deriving DecidableEq

/-- Modelled from the spec: DoraNode::send_typed_output (dora_node_api, not
under src/): obtains a destination buffer of the declared length inside the
channel, invokes the writer callback as the only way to populate it, attaches
the type descriptor and metadata, and enqueues exactly one message; when the
channel is closed or the output id is not declared it rejects the send with its
own error and enqueues nothing (spec section 4.4). -/
def DoraNode.send_typed_output (nd : DoraNode) (output_id : String)
    (dt : DataType) (parameters : List (String × MetadataValue)) (len : Nat)
    (writer : List Nat → List Nat) : Except EyreError Unit × DoraNode :=
  if nd.channel_closed then
    (Except.error (EyreError.new ("channel closed")), nd)
  else if nd.declared_outputs.contains output_id then
    (Except.ok (),
      { nd with
        sent := nd.sent ++
          [{ output_id := output_id, data_type := dt, metadata := parameters,
             len := len, data := writer (List.replicate len 0) }] })
  else
    (Except.error (EyreError.new ("no output with id " ++ output_id)), nd)

/-- slice::copy_from_slice as used by the writer closure of lib.rs: overwrites
the destination buffer with the source bytes.  Rust panics when the lengths
differ — a case no call site of lib.rs reaches, because the declared length is
always the payload length — modelled by leaving the destination unchanged. -/
def copy_from_slice (dest source : List Nat) : List Nat :=
  if source.length = dest.length then source else dest

/-- Modelled from the spec: dora_operator_api_python::pydict_to_metadata (not
under src/): converts the optional host metadata mapping into metadata
parameters; an absent argument is equivalent to an empty mapping (spec
section 4.4). -/
def pydict_to_metadata (d : Option PyDict) :
    Except EyreError (List (String × MetadataValue)) :=
  match d with
  | none => Except.ok []
  | some dict => Except.ok dict.entries

/-- struct Node of lib.rs: the active event source and the underlying dora
node handle. -/
structure Node (E : Type) : Type where
  events : Events E
  node : DoraNode
deriving DecidableEq

/-- Node::send_output_slice of lib.rs: converts the metadata, then sends one
typed output whose writer callback copies the payload bytes into the channel's
destination buffer; a channel failure is wrapped with the context
"failed to send output". -/
def Node.send_output_slice {E : Type} (n : Node E) (output_id : String)
    (len : Nat) (data_type : DataType) (data : List Nat)
    (metadata : Option PyDict) : Except EyreError Unit × Node E :=
  match pydict_to_metadata metadata with
  | Except.error e => (Except.error e, n)
  | Except.ok parameters =>
    match n.node.send_typed_output output_id data_type parameters len
        (fun out => copy_from_slice out data) with
    | (Except.ok _, nd) => (Except.ok (), { n with node := nd })
    | (Except.error e, nd) =>
      (Except.error (e.wrap_err ("failed to send output")), { n with node := nd })

/-- Node::send_output of lib.rs.  The host-binding collaborators
process_python_type and process_python_output (excluded from the core, spec
section 6) are modelled at their interface boundary: they supply the payload's
byte view and its columnar type descriptor and invoke the closure on that byte
view, which calls send_output_slice with the view's length. -/
def Node.send_output {E : Type} (n : Node E) (output_id : String)
    (data : List Nat) (data_type : DataType) (metadata : Option PyDict) :
    Except EyreError Unit × Node E :=
  n.send_output_slice output_id data.length data_type data metadata

/-- Node::__next__ of lib.rs: receives one event from the active source and
always returns Ok — upstream items, error events included, reach the caller
only as returned events, never as a raised exception. -/
def Node.__next__ {E : Type} (n : Node E) :
    Except String (Option (PyEvent E)) × Node E :=
  let r := n.events.recv
  (Except.ok r.1, { n with events := r.2 })

/-- Node::next of lib.rs: delegates to __next__. -/
def Node.next {E : Type} (n : Node E) :
    Except String (Option (PyEvent E)) × Node E :=
  n.__next__

/-- Node::__iter__ of lib.rs: returns the node itself. -/
def Node.__iter__ {E : Type} (n : Node E) : Node E :=
  n

/-- Node::id of lib.rs. -/
def Node.id {E : Type} (n : Node E) : String :=
  n.node.node_id

/-- struct ExternalEventStream of lib.rs: a one-shot adapter around an external
asynchronous stream; the option is emptied when the stream is taken. -/
structure ExternalEventStream (E : Type) : Type where
  stream : Option (Timed E)
deriving DecidableEq

/-- impl From for ExternalEventStream of lib.rs: a fresh adapter wraps the
stream in the not-yet-consumed state. -/
def ExternalEventStream.fromStream {E : Type} (s : Timed E) :
    ExternalEventStream E :=
  { stream := some s }

/-- The outcome of Node::merge_external_events: the returned result and the
states of the node and the adapter after the call (both are mutated through
references in the source). -/
structure MergeOutcome (E : Type) : Type where
  result : Except EyreError Unit
  node : Node E
  adapter : ExternalEventStream E

/-- Node::merge_external_events of lib.rs, mirroring the source statement by
statement: the active event source is moved out and temporarily replaced by an
empty placeholder (Events::Merged of futures::stream::empty); then the
adapter's stream is taken (Option::take with context "stream already taken") —
when that fails the call returns the error with the placeholder still installed
and the moved-out source dropped — and otherwise the merged stream is stored
back as the new active source. -/
def Node.merge_external_events {E : Type} (n : Node E)
    (external_events : ExternalEventStream E) : MergeOutcome E :=
  let events := n.events
  let placeholder : Node E := { n with events := Events.Merged [] }
  match external_events.stream with
  | none =>
    { result := Except.error (EyreError.new ("stream already taken"))
      node := placeholder
      adapter := { stream := none } }
  | some s =>
    { result := Except.ok ()
      node := { placeholder with events := Events.Merged (events.merge_external s) }
      adapter := { stream := none } }

/-- Issuing k receive calls in sequence: the event source left after the k-th
call. -/
def recvIter {E : Type} (k : Nat) (s : Events E) : Events E :=
  match k with
  | 0 => s
  | k + 1 => recvIter k (Events.recv s).2

/-- A concrete dora node handle used by concrete instances below. -/
def sampleDoraNode : DoraNode :=
  { node_id := "node-1", dataflow := "dataflow.yml",
    declared_outputs := ["temperature"], channel_closed := false, sent := [] }

/-- A concrete node with one queued, not-yet-consumed native event. -/
def sampleNode : Node Nat :=
  { events := Events.Dora [(0, DoraEvent.Stop)], node := sampleDoraNode }

/-- A concrete node whose channel is closed, so every send is rejected. -/
def closedNode : Node Nat :=
  { events := Events.Dora []
    node := { node_id := "node-2", dataflow := "dataflow.yml",
              declared_outputs := ["temperature"], channel_closed := true,
              sent := [] } }

/-! ### Lemmas about the timed merge -/

theorem mergeTimed_nil_left {α : Type} (ys : Timed α) : mergeTimed [] ys = ys := by
  simp [mergeTimed]

theorem mergeTimed_nil_right {α : Type} (xs : Timed α) : mergeTimed xs [] = xs := by
  cases xs <;> simp [mergeTimed]

theorem mergeTimed_cons_cons {α : Type} (x y : Nat × α) (xs ys : Timed α) :
    mergeTimed (x :: xs) (y :: ys) =
      if x.1 ≤ y.1 then x :: mergeTimed xs (y :: ys)
      else y :: mergeTimed (x :: xs) ys := by
  simp [mergeTimed]

/-- The merge yields the items of both streams and nothing else: it is a
permutation of their concatenation (no drop, no duplication). -/
theorem mergeTimed_perm {α : Type} (xs ys : Timed α) :
    (mergeTimed xs ys).Perm (xs ++ ys) := by
  match xs, ys with
  | [], ys => simp [mergeTimed_nil_left]
  | x :: xs, [] => simp [mergeTimed_nil_right]
  | x :: xs, y :: ys =>
    rw [mergeTimed_cons_cons]
    by_cases h : x.1 ≤ y.1
    · rw [if_pos h]
      exact (mergeTimed_perm xs (y :: ys)).cons x
    · rw [if_neg h]
      exact ((mergeTimed_perm (x :: xs) ys).cons y).trans List.perm_middle.symm
termination_by xs.length + ys.length

/-- The left stream stays a subsequence of the merge: its items keep their
relative order. -/
theorem left_sublist_mergeTimed {α : Type} (xs ys : Timed α) :
    xs.Sublist (mergeTimed xs ys) := by
  match xs, ys with
  | [], ys => simp [mergeTimed_nil_left]
  | x :: xs, [] => simp [mergeTimed_nil_right]
  | x :: xs, y :: ys =>
    rw [mergeTimed_cons_cons]
    by_cases h : x.1 ≤ y.1
    · rw [if_pos h]
      exact (left_sublist_mergeTimed xs (y :: ys)).cons₂ x
    · rw [if_neg h]
      exact (left_sublist_mergeTimed (x :: xs) ys).cons y
termination_by xs.length + ys.length

/-- The right stream stays a subsequence of the merge: its items keep their
relative order. -/
theorem right_sublist_mergeTimed {α : Type} (xs ys : Timed α) :
    ys.Sublist (mergeTimed xs ys) := by
  match xs, ys with
  | [], ys => simp [mergeTimed_nil_left]
  | x :: xs, [] => simp [mergeTimed_nil_right]
  | x :: xs, y :: ys =>
    rw [mergeTimed_cons_cons]
    by_cases h : x.1 ≤ y.1
    · rw [if_pos h]
      exact (right_sublist_mergeTimed xs (y :: ys)).cons x
    · rw [if_neg h]
      exact (right_sublist_mergeTimed (x :: xs) ys).cons₂ y
termination_by xs.length + ys.length

/-- Merging two streams whose readiness times are nondecreasing yields a
stream whose readiness times are nondecreasing. -/
theorem mergeTimed_sorted {α : Type} {xs ys : Timed α}
    (hx : xs.Pairwise timeLE) (hy : ys.Pairwise timeLE) :
    (mergeTimed xs ys).Pairwise timeLE := by
  match xs, ys with
  | [], ys => rw [mergeTimed_nil_left]; exact hy
  | x :: xs, [] => rw [mergeTimed_nil_right]; exact hx
  | x :: xs, y :: ys =>
    rw [mergeTimed_cons_cons]
    rcases List.pairwise_cons.mp hx with ⟨hx1, hx2⟩
    rcases List.pairwise_cons.mp hy with ⟨hy1, hy2⟩
    by_cases h : x.1 ≤ y.1
    · rw [if_pos h]
      refine List.pairwise_cons.mpr ⟨?_, mergeTimed_sorted hx2 hy⟩
      intro b hb
      rcases List.mem_append.mp ((mergeTimed_perm xs (y :: ys)).mem_iff.mp hb) with hbx | hby
      · exact hx1 b hbx
      · rcases List.mem_cons.mp hby with rfl | hby
        · exact h
        · exact le_trans h (hy1 b hby)
    · rw [if_neg h]
      have hyx : y.1 ≤ x.1 := le_of_not_le h
      refine List.pairwise_cons.mpr ⟨?_, mergeTimed_sorted hx hy2⟩
      intro b hb
      rcases List.mem_append.mp ((mergeTimed_perm (x :: xs) ys).mem_iff.mp hb) with hbx | hby
      · rcases List.mem_cons.mp hbx with rfl | hbx
        · exact hyx
        · exact le_trans hyx (hx1 b hbx)
      · exact hy1 b hby
termination_by xs.length + ys.length

/-- Mapping the payload commutes with the merge: the merge is decided by the
readiness times alone. -/
theorem mergeTimed_tmap {α β : Type} (f : α → β) (xs ys : Timed α) :
    mergeTimed (tmap f xs) (tmap f ys) = tmap f (mergeTimed xs ys) := by
  match xs, ys with
  | [], ys => simp [tmap, mergeTimed_nil_left]
  | x :: xs, [] => simp [tmap, mergeTimed_nil_right]
  | x :: xs, y :: ys =>
    have hx : tmap f (x :: xs) = (x.1, f x.2) :: tmap f xs := rfl
    have hy : tmap f (y :: ys) = (y.1, f y.2) :: tmap f ys := rfl
    rw [hx, hy, mergeTimed_cons_cons, mergeTimed_cons_cons]
    by_cases h : x.1 ≤ y.1
    · rw [if_pos h, if_pos h, ← hy, mergeTimed_tmap f xs (y :: ys)]
      rfl
    · rw [if_neg h, if_neg h, ← hx, mergeTimed_tmap f (x :: xs) ys]
      rfl
termination_by xs.length + ys.length

/-- The timed merge is associative. -/
theorem mergeTimed_assoc {α : Type} (xs ys zs : Timed α) :
    mergeTimed (mergeTimed xs ys) zs = mergeTimed xs (mergeTimed ys zs) := by
  match xs, ys, zs with
  | [], ys, zs => rw [mergeTimed_nil_left, mergeTimed_nil_left]
  | x :: xs, [], zs => rw [mergeTimed_nil_right, mergeTimed_nil_left]
  | x :: xs, y :: ys, [] => rw [mergeTimed_nil_right, mergeTimed_nil_right]
  | x :: xs, y :: ys, z :: zs =>
    by_cases hxy : x.1 ≤ y.1
    · have exy : mergeTimed (x :: xs) (y :: ys) = x :: mergeTimed xs (y :: ys) := by
        rw [mergeTimed_cons_cons, if_pos hxy]
      by_cases hyz : y.1 ≤ z.1
      · have hxz : x.1 ≤ z.1 := le_trans hxy hyz
        have eyz : mergeTimed (y :: ys) (z :: zs) = y :: mergeTimed ys (z :: zs) := by
          rw [mergeTimed_cons_cons, if_pos hyz]
        have exz : mergeTimed (x :: mergeTimed xs (y :: ys)) (z :: zs)
            = x :: mergeTimed (mergeTimed xs (y :: ys)) (z :: zs) := by
          rw [mergeTimed_cons_cons, if_pos hxz]
        have exy2 : mergeTimed (x :: xs) (y :: mergeTimed ys (z :: zs))
            = x :: mergeTimed xs (y :: mergeTimed ys (z :: zs)) := by
          rw [mergeTimed_cons_cons, if_pos hxy]
        rw [exy, exz, mergeTimed_assoc xs (y :: ys) (z :: zs), eyz, exy2]
      · have eyz : mergeTimed (y :: ys) (z :: zs) = z :: mergeTimed (y :: ys) zs := by
          rw [mergeTimed_cons_cons, if_neg hyz]
        by_cases hxz : x.1 ≤ z.1
        · have exz : mergeTimed (x :: mergeTimed xs (y :: ys)) (z :: zs)
              = x :: mergeTimed (mergeTimed xs (y :: ys)) (z :: zs) := by
            rw [mergeTimed_cons_cons, if_pos hxz]
          have exz2 : mergeTimed (x :: xs) (z :: mergeTimed (y :: ys) zs)
              = x :: mergeTimed xs (z :: mergeTimed (y :: ys) zs) := by
            rw [mergeTimed_cons_cons, if_pos hxz]
          rw [exy, exz, mergeTimed_assoc xs (y :: ys) (z :: zs), eyz, exz2]
        · have exz' : mergeTimed (x :: mergeTimed xs (y :: ys)) (z :: zs)
              = z :: mergeTimed (x :: mergeTimed xs (y :: ys)) zs := by
            rw [mergeTimed_cons_cons, if_neg hxz]
          have ezR : mergeTimed (x :: xs) (z :: mergeTimed (y :: ys) zs)
              = z :: mergeTimed (x :: xs) (mergeTimed (y :: ys) zs) := by
            rw [mergeTimed_cons_cons, if_neg hxz]
          rw [exy, exz', ← exy, mergeTimed_assoc (x :: xs) (y :: ys) zs, eyz, ezR]
    · have exy : mergeTimed (x :: xs) (y :: ys) = y :: mergeTimed (x :: xs) ys := by
        rw [mergeTimed_cons_cons, if_neg hxy]
      by_cases hyz : y.1 ≤ z.1
      · have eyz : mergeTimed (y :: ys) (z :: zs) = y :: mergeTimed ys (z :: zs) := by
          rw [mergeTimed_cons_cons, if_pos hyz]
        have eyL : mergeTimed (y :: mergeTimed (x :: xs) ys) (z :: zs)
            = y :: mergeTimed (mergeTimed (x :: xs) ys) (z :: zs) := by
          rw [mergeTimed_cons_cons, if_pos hyz]
        have eyR : mergeTimed (x :: xs) (y :: mergeTimed ys (z :: zs))
            = y :: mergeTimed (x :: xs) (mergeTimed ys (z :: zs)) := by
          rw [mergeTimed_cons_cons, if_neg hxy]
        rw [exy, eyL, mergeTimed_assoc (x :: xs) ys (z :: zs), eyz, eyR]
      · have hxz : ¬ x.1 ≤ z.1 := by omega
        have eyz : mergeTimed (y :: ys) (z :: zs) = z :: mergeTimed (y :: ys) zs := by
          rw [mergeTimed_cons_cons, if_neg hyz]
        have ezL : mergeTimed (y :: mergeTimed (x :: xs) ys) (z :: zs)
            = z :: mergeTimed (y :: mergeTimed (x :: xs) ys) zs := by
          rw [mergeTimed_cons_cons, if_neg hyz]
        have ezR : mergeTimed (x :: xs) (z :: mergeTimed (y :: ys) zs)
            = z :: mergeTimed (x :: xs) (mergeTimed (y :: ys) zs) := by
          rw [mergeTimed_cons_cons, if_neg hxz]
        rw [exy, ezL, ← exy, mergeTimed_assoc (x :: xs) (y :: ys) zs, eyz, ezR]
termination_by xs.length + ys.length + zs.length

/-! ### Lemmas about the stream map -/

theorem flattenExternal_wrapFirst {E : Type} (m : MergedEvent E) :
    MergedEvent.flattenExternal (MergedEvent.wrapFirst m) = m := by
  cases m <;> rfl

theorem tmap_tmap {α β γ : Type} (f : β → γ) (g : α → β) (s : Timed α) :
    tmap f (tmap g s) = tmap (fun a => f (g a)) s := by
  simp [tmap, List.map_map, Function.comp]

theorem tmap_id {α : Type} (s : Timed α) : tmap (fun a => a) s = s := by
  simp [tmap]

theorem pairwise_tmap {α β : Type} (f : α → β) {s : Timed α}
    (h : s.Pairwise timeLE) : (tmap f s).Pairwise timeLE := by
  unfold tmap
  rw [List.pairwise_map]
  exact h

/-! ### The claims -/

/-- C1: the claim states that merge_external_events drops no queued event
whether it returns Ok or fails with the adapter-reuse error.  The code violates
this on the error path: the active source is moved out and replaced by the
empty placeholder before the adapter's stream is taken, so when take fails the
original stream — queued events included — is dropped and the placeholder stays
installed.  Concretely: a node holding one queued native Stop event delivers it
before the call, the call fails with "stream already taken", and a receive
issued immediately after the call returns end-of-stream instead of the queued
event. -/
theorem c1_error_path_drops_queued_events :
    (Events.recv sampleNode.events).1 = some (PyEvent.Dora DoraEvent.Stop) ∧
    (sampleNode.merge_external_events { stream := none }).result
      = Except.error { contexts := [], rootMsg := "stream already taken" } ∧
    Events.recv (sampleNode.merge_external_events { stream := none }).node.events
      = (none, Events.Merged ([] : Timed (MergedEvent Nat))) :=
  ⟨rfl, rfl, rfl⟩

/-- C2: merging external adapter A and later adapter B yields, for identical
interleavings, exactly the stream obtained by merging the single combined
adapter (the arrival-order interleave of A and B) up front: re-merging re-maps
every external item by removing exactly one wrapping layer, so external items
stay exactly one layer deep and never nest. -/
theorem c2_repeated_merge_equals_batch {E : Type} (N : EventStream) (A B : Timed E) :
    Events.merge_external (Events.Merged (Events.merge_external (Events.Dora N) A)) B
      = Events.merge_external (Events.Dora N) (mergeTimed A B) := by
  simp only [Events.merge_external, EventStream.merge_external, mergedMergeExternal]
  rw [← mergeTimed_tmap, tmap_tmap, tmap_tmap]
  simp only [flattenExternal_wrapFirst]
  simp only [MergedEvent.flattenExternal, Either.flatten]
  rw [tmap_id, mergeTimed_assoc, mergeTimed_tmap]

/-- C3: a freshly constructed adapter starts in the not-yet-consumed state, the
first merge of it succeeds and leaves the adapter consumed, and merging the
same adapter again fails with the "stream already taken" error instead of
silently merging an empty stream. -/
theorem c3_adapter_single_use {E : Type} (n : Node E) (s : Timed E) :
    ExternalEventStream.fromStream s = { stream := some s } ∧
    (n.merge_external_events (ExternalEventStream.fromStream s)).result = Except.ok () ∧
    (n.merge_external_events (ExternalEventStream.fromStream s)).adapter = { stream := none } ∧
    ((n.merge_external_events (ExternalEventStream.fromStream s)).node.merge_external_events
        (n.merge_external_events (ExternalEventStream.fromStream s)).adapter).result
      = Except.error { contexts := [], rootMsg := "stream already taken" } :=
  ⟨rfl, rfl, rfl, rfl⟩

/-- C4: one receive call returns exactly zero or one item: for a Dora source it
delegates to the native stream's own blocking receive, for a Merged source it
drives the stream exactly one item forward; in both cases the remaining stream
is exactly the original without its first item, so nothing is prefetched and no
second call is needed to flush a pending item. -/
theorem c4_recv_single_item {E : Type} (t : Nat) (e : DoraEvent) (m : MergedEvent E)
    (rest : EventStream) (mrest : Timed (MergedEvent E)) :
    Events.recv (Events.Dora ((t, e) :: rest) : Events E)
      = (some (PyEvent.fromDoraEvent e), Events.Dora rest) ∧
    Events.recv (Events.Merged ((t, m) :: mrest)) = (some (PyEvent.fromMerged m), Events.Merged mrest) ∧
    Events.recv (Events.Dora ([] : EventStream) : Events E) = (none, Events.Dora []) ∧
    Events.recv (Events.Merged ([] : Timed (MergedEvent E))) = (none, Events.Merged []) ∧
    (∀ s : EventStream, Events.recv (Events.Dora s : Events E)
        = ((EventStream.recv s).1.map PyEvent.fromDoraEvent, Events.Dora (EventStream.recv s).2)) ∧
    (∀ ms : Timed (MergedEvent E), Events.recv (Events.Merged ms)
        = ((streamNext ms).1.map PyEvent.fromMerged, Events.Merged (streamNext ms).2)) :=
  ⟨rfl, rfl, rfl, rfl, fun _ => rfl, fun _ => rfl⟩

/-- C5: once a receive call has returned the end-of-stream signal, every
subsequent receive call on the same source returns the same terminal signal and
leaves the source unchanged — the stream is never resurrected. -/
theorem c5_end_of_stream_idempotent {E : Type} (s : Events E)
    (h : (Events.recv s).1 = none) :
    ∀ k : Nat, Events.recv (recvIter k s) = (none, s) := by
  have hfix : (Events.recv s).2 = s := by
    cases s with
    | Dora evs =>
      cases evs with
      | nil => rfl
      | cons p rest =>
        obtain ⟨pt, pe⟩ := p
        exact absurd h (by simp [Events.recv, EventStream.recv])
    | Merged evs =>
      cases evs with
      | nil => rfl
      | cons p rest =>
        obtain ⟨pt, pe⟩ := p
        exact absurd h (by simp [Events.recv, streamNext])
  have hr : Events.recv s = (none, s) := by
    have hpair : Events.recv s = ((Events.recv s).1, (Events.recv s).2) := rfl
    rw [hpair, h, hfix]
  intro k
  induction k with
  | zero => simpa [recvIter] using hr
  | succ k ih =>
    simp only [recvIter]
    rw [hfix]
    exact ih

/-- Witness for C5: three consecutive receive calls on an exhausted native
source all return the terminal signal. -/
theorem c5_end_of_stream_idempotent_witness :
    Events.recv (recvIter 3 (Events.Dora ([] : EventStream) : Events Nat))
      = (none, Events.Dora ([] : EventStream)) :=
  c5_end_of_stream_idempotent (Events.Dora []) rfl 3

/-- C6: a send with an accepted output identifier enqueues exactly one message
carrying that identifier, a buffer of declared length equal to the payload
length holding exactly the payload bytes, the given type descriptor, and the
given metadata, an absent metadata argument behaving as an empty mapping; the
receive path is untouched. -/
theorem c6_send_output_enqueues {E : Type} (n : Node E) (oid : String)
    (dt : DataType) (data : List Nat) (md : Option PyDict)
    (hopen : n.node.channel_closed = false)
    (hdecl : n.node.declared_outputs.contains oid = true) :
    (n.send_output oid data dt md).1 = Except.ok () ∧
    (n.send_output oid data dt md).2.node.sent = n.node.sent ++
      [{ output_id := oid, data_type := dt,
         metadata := (match md with | none => [] | some d => d.entries),
         len := data.length, data := data }] ∧
    (n.send_output oid data dt md).2.events = n.events := by
  have hmem : oid ∈ n.node.declared_outputs := by simpa using hdecl
  cases md <;>
    simp [Node.send_output, Node.send_output_slice, pydict_to_metadata,
      DoraNode.send_typed_output, copy_from_slice, hopen, hmem]

/-- Witness for C6: the spec's round-trip example — identifier "temperature",
payload bytes 1 2 3 4, length 4, float32 descriptor, metadata mapping unit to
celsius — enqueues exactly that message. -/
theorem c6_send_output_enqueues_witness :
    (sampleNode.send_output ("temperature") [1, 2, 3, 4] DataType.Float32
        (some { entries := [("unit", MetadataValue.StringV ("celsius"))] })).1 = Except.ok () ∧
    (sampleNode.send_output ("temperature") [1, 2, 3, 4] DataType.Float32
        (some { entries := [("unit", MetadataValue.StringV ("celsius"))] })).2.node.sent
      = sampleNode.node.sent ++
        [{ output_id := "temperature", data_type := DataType.Float32,
           metadata := [("unit", MetadataValue.StringV ("celsius"))],
           len := 4, data := [1, 2, 3, 4] }] ∧
    (sampleNode.send_output ("temperature") [1, 2, 3, 4] DataType.Float32
        (some { entries := [("unit", MetadataValue.StringV ("celsius"))] })).2.events
      = sampleNode.events :=
  c6_send_output_enqueues sampleNode ("temperature") DataType.Float32 [1, 2, 3, 4]
    (some { entries := [("unit", MetadataValue.StringV ("celsius"))] }) rfl rfl

/-- C7: when the underlying channel rejects a send, the call fails with a
"failed to send output" error that wraps the channel's own error without
discarding it, and the node — its event source and its channel state — is left
exactly as it was, so the receive path and later sends are unaffected. -/
theorem c7_send_failure_wraps {E : Type} (n : Node E) (oid : String) (len : Nat)
    (dt : DataType) (data : List Nat) (md : Option PyDict)
    (hreject : n.node.channel_closed = true ∨
      n.node.declared_outputs.contains oid = false) :
    (n.send_output_slice oid len dt data md).1 = Except.error
      { contexts := ["failed to send output"],
        rootMsg := if n.node.channel_closed then "channel closed"
          else "no output with id " ++ oid } ∧
    (n.send_output_slice oid len dt data md).2 = n := by
  cases hc : n.node.channel_closed with
  | true =>
    cases md <;>
      simp [Node.send_output_slice, pydict_to_metadata, DoraNode.send_typed_output,
        EyreError.wrap_err, EyreError.new, hc]
  | false =>
    have hnd : n.node.declared_outputs.contains oid = false := by
      rcases hreject with h | h
      · rw [hc] at h
        cases h
      · exact h
    have hmemn : oid ∉ n.node.declared_outputs := by simpa using hnd
    cases md <;>
      simp [Node.send_output_slice, pydict_to_metadata, DoraNode.send_typed_output,
        EyreError.wrap_err, EyreError.new, hc, hmemn]

/-- Witness for C7: a send on a node whose channel is closed fails with the
wrapped "channel closed" error and leaves the node unchanged. -/
theorem c7_send_failure_wraps_witness :
    (closedNode.send_output_slice ("temperature") 4 DataType.Float32 [1, 2, 3, 4] none).1
      = Except.error { contexts := ["failed to send output"], rootMsg := "channel closed" } ∧
    (closedNode.send_output_slice ("temperature") 4 DataType.Float32 [1, 2, 3, 4] none).2
      = closedNode := by
  have h := c7_send_failure_wraps closedNode ("temperature") 4 DataType.Float32
    [1, 2, 3, 4] none (Or.inl rfl)
  simpa [closedNode] using h

/-- C8: __next__ always returns Ok — its payload is whatever the receive
produced — so an error item yielded by the native stream, directly or through a
merged stream, reaches the consumer as an ordinary distinguishable event,
never silently dropped and never raised as an exception. -/
theorem c8_errors_delivered_as_events {E : Type} (n : Node E) (t : Nat) (em : String)
    (rest : EventStream) (mrest : Timed (MergedEvent E)) :
    (Node.__next__ n).1 = Except.ok (Events.recv n.events).1 ∧
    Events.recv (Events.Dora ((t, DoraEvent.Error em) :: rest) : Events E)
      = (some (PyEvent.Dora (DoraEvent.Error em)), Events.Dora rest) ∧
    Events.recv (Events.Merged ((t, MergedEvent.Dora (DoraEvent.Error em)) :: mrest))
      = (some (PyEvent.Dora (DoraEvent.Error em)), Events.Merged mrest) :=
  ⟨rfl, rfl, rfl⟩

/-- C9: for streams whose readiness times are nondecreasing, the merged stream
yields all items of both sources in nondecreasing readiness order, drops and
duplicates nothing (it is a permutation of the two tagged sources), and
preserves the relative order within each source (each tagged source is a
subsequence of the merge). -/
theorem c9_merge_order {E : Type} (N : EventStream) (X : Timed E)
    (hN : N.Pairwise timeLE) (hX : X.Pairwise timeLE) :
    (Events.merge_external (Events.Dora N) X).Pairwise timeLE ∧
    (Events.merge_external (Events.Dora N) X).Perm
      (tmap MergedEvent.Dora N ++ tmap MergedEvent.External X) ∧
    (tmap MergedEvent.Dora N).Sublist (Events.merge_external (Events.Dora N) X) ∧
    (tmap MergedEvent.External X).Sublist (Events.merge_external (Events.Dora N) X) :=
  ⟨mergeTimed_sorted (pairwise_tmap _ hN) (pairwise_tmap _ hX),
    mergeTimed_perm _ _, left_sublist_mergeTimed _ _, right_sublist_mergeTimed _ _⟩

/-- Witness for C9: one native event ready at time 0 merged with one external
item ready at time 1. -/
theorem c9_merge_order_witness :
    List.Pairwise timeLE ([(0, DoraEvent.Stop)] : EventStream) ∧
    ((Events.merge_external (Events.Dora [(0, DoraEvent.Stop)]) ([(1, 5)] : Timed Nat)).Pairwise timeLE ∧
      (Events.merge_external (Events.Dora [(0, DoraEvent.Stop)]) ([(1, 5)] : Timed Nat)).Perm
        (tmap MergedEvent.Dora [(0, DoraEvent.Stop)] ++ tmap MergedEvent.External [(1, 5)]) ∧
      (tmap MergedEvent.Dora [(0, DoraEvent.Stop)]).Sublist
        (Events.merge_external (Events.Dora [(0, DoraEvent.Stop)]) ([(1, 5)] : Timed Nat)) ∧
      (tmap MergedEvent.External ([(1, 5)] : Timed Nat)).Sublist
        (Events.merge_external (Events.Dora [(0, DoraEvent.Stop)]) ([(1, 5)] : Timed Nat))) :=
  ⟨by simp, c9_merge_order [(0, DoraEvent.Stop)] [(1, 5)] (by simp) (by simp)⟩

/-- C10: next and __next__ are the same operation and __iter__ returns the node
unchanged, so a for-loop over the node observes exactly the sequence repeated
next calls would observe. -/
theorem c10_next_iter_delegation {E : Type} (n : Node E) :
    Node.next n = Node.__next__ n ∧ Node.__iter__ n = n :=
  ⟨rfl, rfl⟩

end DoraSpec
